import Mathlib

/-!
Shallow embedding of `src/manga-ocr-server/app.py`, a FastAPI server exposing
two endpoints:

* `POST /ocr` (`recognize_text`, lines 10-14): read the uploaded bytes, decode
  them with `PIL.Image.open`, run the module-level `mocr` engine on the decoded
  image, and return `{"text": text}`.
* `POST /ocr/batch` (`recognize_batch`, lines 16-24): iterate over the uploaded
  files in order, processing each as above and appending `{"text": text}` to a
  `results` list, and return `{"results": results}`.

Python exceptions (a failed `Image.open` on undecodable bytes, or a failure of
the model call) are modeled with `Except String`: the handlers contain no
`try/except`, so an exception raised by either call propagates out of the
handler — in the batch loop it aborts the whole loop.  `PIL.Image.open` and the
`manga_ocr` engine are third-party collaborators, not code of this repository,
so the embedding takes them as parameters (`Image_open`, `mocr`); the decoded
image type `Img` is likewise a parameter.
-/

namespace MangaOcrServer

/-- An uploaded file (`fastapi.UploadFile`): its raw byte payload.  Bytes are
modeled as a list of naturals. -/
structure UploadFile where
  contents : List Nat
  deriving DecidableEq, Repr

/-- `await image.read()`: returns the upload's bytes. -/
def UploadFile.read (f : UploadFile) : List Nat := f.contents

/-- The JSON object `{"text": ...}` built for one recognized image. -/
structure TextResult where
  text : String
  deriving DecidableEq, Repr

/-- The JSON object `{"results": [...]}` returned by the batch endpoint. -/
structure BatchResponse where
  results : List TextResult
  deriving DecidableEq, Repr

/-- The `/ocr` handler (app.py lines 10-14): `contents = await image.read()`,
`img = Image.open(io.BytesIO(contents))`, `text = mocr(img)`,
`return {"text": text}`.  There is no `try/except`, so an exception from
decoding or from the model call propagates out of the handler
(`Except.error`). -/
def recognize_text {Img : Type} (Image_open : List Nat → Except String Img)
    (mocr : Img → Except String String) (image : UploadFile) :
    Except String TextResult := do
  let contents := image.read
  let img ← Image_open contents
  let text ← mocr img
  return { text := text }

/-- The `for image in images` loop of the `/ocr/batch` handler (app.py lines
18-23) with its `results` accumulator: each item's bytes are read and decoded,
the engine is run, and `{"text": text}` is appended to `results`; an exception
from any item propagates, aborting the rest of the loop. -/
def batchGo {Img : Type} (Image_open : List Nat → Except String Img)
    (mocr : Img → Except String String) :
    List UploadFile → List TextResult → Except String (List TextResult)
  | [], results => .ok results
  | image :: rest, results => do
    let contents := image.read
    let img ← Image_open contents
    let text ← mocr img
    batchGo Image_open mocr rest (results ++ [{ text := text }])

/-- The `/ocr/batch` handler (app.py lines 16-24): run the loop starting from
`results = []` and return `{"results": results}`. -/
def recognize_batch {Img : Type} (Image_open : List Nat → Except String Img)
    (mocr : Img → Except String String) (images : List UploadFile) :
    Except String BatchResponse := do
  let results ← batchGo Image_open mocr images []
  return { results := results }

/-- Spec-side definition for the refinement claim: apply the single-item
endpoint `recognize_text` to every input in order, propagating the first
error.  The batch endpoint is compared against this. -/
def mapOne {Img : Type} (Image_open : List Nat → Except String Img)
    (mocr : Img → Except String String) :
    List UploadFile → Except String (List TextResult)
  | [] => .ok []
  | image :: rest => do
    let r ← recognize_text Image_open mocr image
    let rs ← mapOne Image_open mocr rest
    return r :: rs

/-- A concrete stand-in for `PIL.Image.open` used to evaluate the handlers on
concrete inputs: empty payloads and payloads starting with byte 1 fail to
decode, everything else decodes to the image `7`. -/
def demoOpen : List Nat → Except String Nat
  | [] => .error "decode failed"
  | 1 :: _ => .error "decode failed"
  | _ => .ok 7

/-- A concrete stand-in for the engine that recognizes every image. -/
def demoOcr : Nat → Except String String := fun _ => .ok "recognized"

/-- A concrete stand-in for the engine that fails on every image. -/
def demoOcrErr : Nat → Except String String := fun _ => .error "inference failed"

/-- Bytes that `demoOpen` decodes. -/
def goodBytes : List Nat := [0, 3]

/-- Bytes that `demoOpen` rejects. -/
def badBytes : List Nat := [1]

/-! Process-lifecycle model.  App.py line 7 runs `mocr = MangaOcr()` once, in
the module body; the ASGI server imports the module (running its body to
completion, hence loading the engine) before it starts handling requests.  The
following definitions record the trace of engine events — the one engine
construction plus every invocation of `mocr` performed by the handlers — for a
sequence of served requests. -/

/-- An engine event: the one-time module-level construction `mocr = MangaOcr()`
(line 7), or an invocation `mocr(img)` on a decoded image. -/
inductive EngineEvent (Img : Type) where
  | engineInit
  | recognizeCall (img : Img)
  deriving DecidableEq, Repr

/-- Whether an event is the engine construction. -/
def EngineEvent.isInit {Img : Type} : EngineEvent Img → Bool
  | .engineInit => true
  | .recognizeCall _ => false

/-- A request served by the app: one of its two routes. -/
inductive Request where
  | ocr (image : UploadFile)
  | ocrBatch (images : List UploadFile)
  deriving DecidableEq, Repr

/-- The `mocr` invocations performed by the batch loop: each item that decodes
leads to one engine call; a decode exception stops the loop, and an engine
exception stops the loop after that call. -/
def batchCalls {Img : Type} (Image_open : List Nat → Except String Img)
    (mocr : Img → Except String String) :
    List UploadFile → List (EngineEvent Img)
  | [] => []
  | image :: rest =>
    match Image_open image.read with
    | .error _ => []
    | .ok img =>
      match mocr img with
      | .error _ => [.recognizeCall img]
      | .ok _ => .recognizeCall img :: batchCalls Image_open mocr rest

/-- The `mocr` invocations performed while handling one request. -/
def requestCalls {Img : Type} (Image_open : List Nat → Except String Img)
    (mocr : Img → Except String String) : Request → List (EngineEvent Img)
  | .ocr image =>
    match Image_open image.read with
    | .error _ => []
    | .ok img => [.recognizeCall img]
  | .ocrBatch images => batchCalls Image_open mocr images

/-- Engine events of a sequence of requests handled in turn. -/
def requestsCalls {Img : Type} (Image_open : List Nat → Except String Img)
    (mocr : Img → Except String String) :
    List Request → List (EngineEvent Img)
  | [] => []
  | r :: rest =>
    requestCalls Image_open mocr r ++ requestsCalls Image_open mocr rest

/-- The engine-event trace of one process: module import constructs the engine
(line 7) before the server handles any request; the served requests follow. -/
def serverTrace {Img : Type} (Image_open : List Nat → Except String Img)
    (mocr : Img → Except String String) (reqs : List Request) :
    List (EngineEvent Img) :=
  .engineInit :: requestsCalls Image_open mocr reqs

/-! Helper lemmas characterizing the handlers. -/

/-- `recognize_text` as an explicit case split on the two fallible calls. -/
theorem recognize_text_eq {Img : Type} (dec : List Nat → Except String Img)
    (ocr : Img → Except String String) (f : UploadFile) :
    recognize_text dec ocr f =
      match dec f.read with
      | .error e => .error e
      | .ok img =>
        match ocr img with
        | .error e => .error e
        | .ok t => .ok { text := t } := by
  simp only [recognize_text, UploadFile.read, bind, Except.bind]
  cases hd : dec f.contents with
  | error e => simp
  | ok img =>
    cases ho : ocr img with
    | error e => simp [ho]
    | ok t => simp [ho, pure, Except.pure]

/-- The batch loop equals mapping the single-item endpoint, appended to the
accumulator. -/
theorem batchGo_eq_mapOne {Img : Type} (dec : List Nat → Except String Img)
    (ocr : Img → Except String String) (l : List UploadFile)
    (acc : List TextResult) :
    batchGo dec ocr l acc =
      match mapOne dec ocr l with
      | .error e => .error e
      | .ok rs => .ok (acc ++ rs) := by
  induction l generalizing acc with
  | nil => simp [batchGo, mapOne]
  | cons f rest ih =>
    rw [batchGo, mapOne, recognize_text_eq]
    simp only [UploadFile.read, bind, Except.bind, pure, Except.pure]
    cases hd : dec f.contents with
    | error e => simp
    | ok img =>
      cases ho : ocr img with
      | error e => simp [ho]
      | ok t =>
        simp only [ho]
        rw [ih]
        cases hm : mapOne dec ocr rest with
        | error e => simp
        | ok rs => simp

/-- The batch endpoint equals mapping the single-item endpoint over the
inputs, wrapped in a `BatchResponse`. -/
theorem recognize_batch_eq_mapOne {Img : Type}
    (dec : List Nat → Except String Img) (ocr : Img → Except String String)
    (l : List UploadFile) :
    recognize_batch dec ocr l =
      match mapOne dec ocr l with
      | .error e => .error e
      | .ok rs => .ok { results := rs } := by
  rw [recognize_batch, batchGo_eq_mapOne]
  cases hm : mapOne dec ocr l <;>
    simp [Except.bind, bind, pure, Except.pure]

/-- `mapOne` over an appended list splits into the two halves. -/
theorem mapOne_append {Img : Type} (dec : List Nat → Except String Img)
    (ocr : Img → Except String String) (l1 l2 : List UploadFile) :
    mapOne dec ocr (l1 ++ l2) =
      match mapOne dec ocr l1 with
      | .error e => .error e
      | .ok rs1 =>
        match mapOne dec ocr l2 with
        | .error e => .error e
        | .ok rs2 => .ok (rs1 ++ rs2) := by
  induction l1 with
  | nil => cases hm : mapOne dec ocr l2 <;> simp [mapOne, hm]
  | cons f rest ih =>
    rw [List.cons_append, mapOne, mapOne, ih]
    simp only [bind, Except.bind, pure, Except.pure]
    cases hr : recognize_text dec ocr f with
    | error e => simp
    | ok r =>
      cases h1 : mapOne dec ocr rest with
      | error e => simp
      | ok rs1 =>
        cases h2 : mapOne dec ocr l2 with
        | error e => simp
        | ok rs2 => simp

/-- Inversion of a successful `mapOne` on a nonempty list. -/
theorem mapOne_cons_ok {Img : Type} (dec : List Nat → Except String Img)
    (ocr : Img → Except String String) (f : UploadFile)
    (rest : List UploadFile) (rs : List TextResult)
    (h : mapOne dec ocr (f :: rest) = .ok rs) :
    ∃ r rs0, recognize_text dec ocr f = .ok r ∧
      mapOne dec ocr rest = .ok rs0 ∧ rs = r :: rs0 := by
  rw [mapOne] at h
  cases hg : recognize_text dec ocr f with
  | error e => rw [hg] at h; simp [bind, Except.bind] at h
  | ok r =>
    rw [hg] at h
    cases hm : mapOne dec ocr rest with
    | error e => rw [hm] at h; simp [bind, Except.bind] at h
    | ok rs0 =>
      rw [hm] at h
      simp only [bind, Except.bind, pure, Except.pure, Except.ok.injEq] at h
      exact ⟨r, rs0, rfl, rfl, h.symm⟩

/-- When `mapOne` succeeds, it returns one result per input. -/
theorem mapOne_ok_length {Img : Type} (dec : List Nat → Except String Img)
    (ocr : Img → Except String String) (l : List UploadFile)
    (rs : List TextResult) (h : mapOne dec ocr l = .ok rs) :
    rs.length = l.length := by
  induction l generalizing rs with
  | nil =>
    rw [mapOne] at h
    simp only [Except.ok.injEq] at h
    simp [← h]
  | cons f rest ih =>
    obtain ⟨r, rs0, hg, hm, rfl⟩ := mapOne_cons_ok dec ocr f rest rs h
    simp [ih rs0 hm]

/-- When `mapOne` succeeds, the `i`-th result is the single-item endpoint's
output on the `i`-th input. -/
theorem mapOne_ok_get {Img : Type} (dec : List Nat → Except String Img)
    (ocr : Img → Except String String) (l : List UploadFile)
    (rs : List TextResult) (h : mapOne dec ocr l = .ok rs) (i : Nat)
    (f : UploadFile) (hf : l[i]? = some f) (r : TextResult)
    (hr : rs[i]? = some r) : recognize_text dec ocr f = .ok r := by
  induction l generalizing rs i with
  | nil => simp at hf
  | cons g rest ih =>
    obtain ⟨r0, rs0, hg, hm, rfl⟩ := mapOne_cons_ok dec ocr g rest rs h
    cases i with
    | zero =>
      simp only [List.getElem?_cons_zero, Option.some.injEq] at hf hr
      rw [← hf, ← hr]
      exact hg
    | succ j =>
      simp only [List.getElem?_cons_succ] at hf hr
      exact ih rs0 hm j hf hr

/-- The batch loop never constructs an engine. -/
theorem batchCalls_countP_isInit {Img : Type}
    (dec : List Nat → Except String Img) (ocr : Img → Except String String)
    (fs : List UploadFile) :
    (batchCalls dec ocr fs).countP EngineEvent.isInit = 0 := by
  induction fs with
  | nil => simp [batchCalls]
  | cons f rest ih =>
    rw [batchCalls]
    cases hd : dec f.read with
    | error e => simp
    | ok img =>
      cases ho : ocr img with
      | error e => simp [ho, EngineEvent.isInit]
      | ok t => simp [ho, List.countP_cons, EngineEvent.isInit, ih]

/-- Handling one request never constructs an engine. -/
theorem requestCalls_countP_isInit {Img : Type}
    (dec : List Nat → Except String Img) (ocr : Img → Except String String)
    (r : Request) :
    (requestCalls dec ocr r).countP EngineEvent.isInit = 0 := by
  cases r with
  | ocr image =>
    rw [requestCalls]
    cases hd : dec image.read with
    | error e => simp
    | ok img => simp [EngineEvent.isInit]
  | ocrBatch images =>
    rw [requestCalls]
    exact batchCalls_countP_isInit dec ocr images

/-- Handling a sequence of requests never constructs an engine. -/
theorem requestsCalls_countP_isInit {Img : Type}
    (dec : List Nat → Except String Img) (ocr : Img → Except String String)
    (reqs : List Request) :
    (requestsCalls dec ocr reqs).countP EngineEvent.isInit = 0 := by
  induction reqs with
  | nil => simp [requestsCalls]
  | cons r rest ih =>
    rw [requestsCalls]
    simp [List.countP_append, requestCalls_countP_isInit, ih]

/-! Claim theorems. -/

/-- Claim C1, counterexample: the batch `[valid, corrupt, valid]` does not
yield three per-item results with an error descriptor in the middle slot; the
handler propagates the decode exception and returns no per-item results at
all. -/
theorem batch_not_isolated_cex :
    recognize_batch demoOpen demoOcr
        [{ contents := goodBytes }, { contents := badBytes },
          { contents := goodBytes }] = .error "decode failed" := by
  rfl

/-- Claim C1 (amended): a batch containing one item whose bytes fail to decode
among otherwise valid items is aborted: `recognize_batch` propagates the
decode error, discarding the results of the valid items before it and never
processing the items after it (the result is the same for every suffix
`post`). -/
theorem batch_decode_failure_aborts {Img : Type}
    (dec : List Nat → Except String Img) (ocr : Img → Except String String)
    (pre : List UploadFile) (bad : UploadFile) (post : List UploadFile)
    (rs : List TextResult) (e : String)
    (hpre : mapOne dec ocr pre = .ok rs)
    (hbad : dec bad.read = .error e) :
    recognize_batch dec ocr (pre ++ bad :: post) = .error e := by
  have h1 : mapOne dec ocr (bad :: post) = .error e := by
    rw [mapOne, recognize_text_eq, hbad]
    simp [bind, Except.bind]
  rw [recognize_batch_eq_mapOne, mapOne_append, hpre, h1]

/-- Witness for `batch_decode_failure_aborts` at a concrete batch. -/
theorem batch_decode_failure_aborts_witness :
    recognize_batch demoOpen demoOcr
        [{ contents := goodBytes }, { contents := goodBytes },
          { contents := badBytes }, { contents := goodBytes }] =
      .error "decode failed" :=
  batch_decode_failure_aborts demoOpen demoOcr
    [{ contents := goodBytes }, { contents := goodBytes }]
    { contents := badBytes } [{ contents := goodBytes }]
    [{ text := "recognized" }, { text := "recognized" }] "decode failed"
    (by rfl) (by rfl)

/-- Claim C2, counterexample: a batch of one input whose bytes fail to decode
does not yield one result; the handler returns no result sequence at all, so
`recognize_batch` does not return exactly N results for every batch of N
inputs. -/
theorem batch_not_always_n_results_cex :
    recognize_batch demoOpen demoOcr [{ contents := badBytes }] =
      .error "decode failed" := by
  rfl

/-- Claim C2 (amended): for every batch whose items all decode and recognize
successfully, `recognize_batch` returns exactly N results, and the result at
each position is the one produced for the input at the same position. -/
theorem batch_success_length_order {Img : Type}
    (dec : List Nat → Except String Img) (ocr : Img → Except String String)
    (images : List UploadFile) (rs : List TextResult) (i : Nat)
    (f : UploadFile) (r : TextResult)
    (hall : mapOne dec ocr images = .ok rs)
    (hf : images[i]? = some f) (hr : rs[i]? = some r) :
    recognize_batch dec ocr images = .ok { results := rs } ∧
      rs.length = images.length ∧ recognize_text dec ocr f = .ok r := by
  refine ⟨?_, mapOne_ok_length dec ocr images rs hall,
    mapOne_ok_get dec ocr images rs hall i f hf r hr⟩
  rw [recognize_batch_eq_mapOne, hall]

/-- Witness for `batch_success_length_order` at a concrete all-valid batch. -/
theorem batch_success_length_order_witness :
    recognize_batch demoOpen demoOcr
        [{ contents := goodBytes }, { contents := goodBytes }] =
      .ok { results := [{ text := "recognized" }, { text := "recognized" }] } ∧
    ([{ text := "recognized" }, { text := "recognized" }] :
        List TextResult).length =
      ([{ contents := goodBytes }, { contents := goodBytes }] :
        List UploadFile).length ∧
    recognize_text demoOpen demoOcr { contents := goodBytes } =
      .ok { text := "recognized" } :=
  batch_success_length_order demoOpen demoOcr
    [{ contents := goodBytes }, { contents := goodBytes }]
    [{ text := "recognized" }, { text := "recognized" }] 1
    { contents := goodBytes } { text := "recognized" }
    (by rfl) (by rfl) (by rfl)

/-- Claim C3, counterexample: on a zero-length byte payload (which fails to
decode) the single-item handler does not return `{"error": "decode failed"}`
as data; it propagates the decode exception out of the handler as a fault. -/
theorem single_error_propagates_cex :
    recognize_text demoOpen demoOcr { contents := [] } =
      .error "decode failed" := by
  rfl

/-- Claim C3 (amended): the single-item handler performs decode then
recognize, and a decode error or an inference error propagates out of the
handler uncaught (the handler has no error capture), rather than being
returned as an error-valued result. -/
theorem single_error_propagates {Img : Type}
    (dec : List Nat → Except String Img) (ocr : Img → Except String String)
    (f : UploadFile) (e : String)
    (h : dec f.read = .error e ∨
      ∃ img, dec f.read = .ok img ∧ ocr img = .error e) :
    recognize_text dec ocr f = .error e := by
  rw [recognize_text_eq]
  rcases h with h | ⟨img, h1, h2⟩
  · simp [h]
  · simp [h1, h2]

/-- Witness for `single_error_propagates`: a propagated inference error. -/
theorem single_error_propagates_witness :
    recognize_text demoOpen demoOcrErr { contents := goodBytes } =
      .error "inference failed" :=
  single_error_propagates demoOpen demoOcrErr { contents := goodBytes }
    "inference failed" (Or.inr ⟨7, by rfl, by rfl⟩)

/-- Claim C4: the empty batch yields the empty result sequence, not an
error. -/
theorem batch_empty_ok {Img : Type} (dec : List Nat → Except String Img)
    (ocr : Img → Except String String) :
    recognize_batch dec ocr [] = .ok { results := [] } := by
  rw [recognize_batch_eq_mapOne, mapOne]

/-- Claim C5: in the process trace, the module-level engine construction
(line 7, run once at import, before the server handles requests) is the first
event and the only construction event, so every engine invocation made by
either endpoint happens after the one-time startup construction has
finished. -/
theorem engine_init_once_before_calls {Img : Type}
    (dec : List Nat → Except String Img) (ocr : Img → Except String String)
    (reqs : List Request) :
    (serverTrace dec ocr reqs).head? = some EngineEvent.engineInit ∧
      (serverTrace dec ocr reqs).countP EngineEvent.isInit = 1 := by
  constructor
  · rfl
  · rw [serverTrace]
    simp [List.countP_cons, EngineEvent.isInit,
      requestsCalls_countP_isInit dec ocr reqs]

/-- Claim C9: if every item before position k succeeds and the k-th item
fails (in decode or in recognition), the batch returns no results at all: the
results already computed for the first k items are discarded and the items
after position k are never reached — the conclusion is the same error for
every suffix `post`. -/
theorem batch_all_or_nothing {Img : Type}
    (dec : List Nat → Except String Img) (ocr : Img → Except String String)
    (pre : List UploadFile) (bad : UploadFile) (post : List UploadFile)
    (rs : List TextResult) (e : String)
    (hpre : mapOne dec ocr pre = .ok rs)
    (hbad : recognize_text dec ocr bad = .error e) :
    recognize_batch dec ocr (pre ++ bad :: post) = .error e := by
  have h1 : mapOne dec ocr (bad :: post) = .error e := by
    rw [mapOne, hbad]
    simp [bind, Except.bind]
  rw [recognize_batch_eq_mapOne, mapOne_append, hpre, h1]

/-- Witness for `batch_all_or_nothing`: an inference failure on the first
item aborts a three-item batch. -/
theorem batch_all_or_nothing_witness :
    recognize_batch demoOpen demoOcrErr
        [{ contents := goodBytes }, { contents := goodBytes },
          { contents := goodBytes }] = .error "inference failed" :=
  batch_all_or_nothing demoOpen demoOcrErr [] { contents := goodBytes }
    [{ contents := goodBytes }, { contents := goodBytes }] [] "inference failed"
    (by rfl) (by rfl)

/-- Claim C10: for every batch whose items all succeed, the batch endpoint's
result list equals mapping the single-item endpoint's processing
(`recognize_text`: read bytes, decode, recognize, wrap as `{"text": ...}`)
over the inputs in order. -/
theorem batch_refines_single_map {Img : Type}
    (dec : List Nat → Except String Img) (ocr : Img → Except String String)
    (images : List UploadFile) (rs : List TextResult)
    (h : mapOne dec ocr images = .ok rs) :
    recognize_batch dec ocr images = .ok { results := rs } := by
  rw [recognize_batch_eq_mapOne, h]

/-- Witness for `batch_refines_single_map` at a concrete batch. -/
theorem batch_refines_single_map_witness :
    recognize_batch demoOpen demoOcr [{ contents := goodBytes }] =
      .ok { results := [{ text := "recognized" }] } :=
  batch_refines_single_map demoOpen demoOcr [{ contents := goodBytes }]
    [{ text := "recognized" }] (by rfl)

end MangaOcrServer
